import Mathlib

/-!
Verification of the QuickStatements line data model and renderer
(quickstatements_client/model.py), as a shallow embedding in Lean.

Conventions of the embedding:
* Python strings are Lean `String`s; `sep.join(parts)` is `pyJoin`.
* pydantic field validation with a regex constraint applies Python's
  re.match, which anchors the pattern at the START of the string only.
  Each concrete regex of the source is transcribed into a decidable
  predicate under those semantics, written next to the pattern it embeds.
  A dollar anchor is modelled as end-of-string and a digit class as the
  ASCII digits (the inputs of interest contain no newlines and no
  non-ASCII digits).
* Raising an exception is modelled with `Except String`; constructing a
  pydantic model is modelled by an `Option`-returning smart constructor
  (`none` is a ValidationError).
-/

set_option maxRecDepth 4096

namespace QuickStatements

/-- Python's sep.join over a list of strings. -/
def pyJoin (sep : String) : List String → String
  | [] => ""
  | [x] => x
  | x :: xs => x ++ sep ++ pyJoin sep xs

/-- Python's zero-padding format spec for a nonnegative integer,
for example the f-string piece with year formatted to width 4. -/
def padNum (width : Nat) (n : Nat) : String :=
  let s := toString n
  String.mk (List.replicate (width - s.length) '0') ++ s

/-! ## Regex field validators (model.py lines 42-43, 54, 153, 180-198, 218)

The bundled language-code data file (language_codes/data.json) is not in
the sources; `LANGUAGE_CODES` below is modelled from the spec. -/

/-- Modelled from the spec: the closed set of recognized ISO639 language
codes loaded at import time from the bundled data.json (absent from the
sources); the spec fixes only that it is a fixed closed set of 2-or-3
letter ISO639 codes, so a representative closed list is used here. -/
def LANGUAGE_CODES : List String :=
  ["aa", "ab", "af", "ar", "de", "el", "en", "eo", "es", "fr",
   "it", "ja", "nl", "pt", "ru", "sv", "yue", "zh"]

/-- The regex of EntityQualifier.predicate, EntityQualifier.target,
DateQualifier.predicate and TextQualifier.predicate: one of the letters
P, Q, S followed by one or more digits, anchored on both sides, so a
full match of the whole string. -/
def isPQSNum (s : String) : Bool :=
  match s.data with
  | c :: rest => (c = 'P' || c = 'Q' || c = 'S') && !rest.isEmpty && rest.all Char.isDigit
  | [] => false

/-- A full match of Q followed by one or more digits. -/
def isQNum (s : String) : Bool :=
  match s.data with
  | 'Q' :: rest => !rest.isEmpty && rest.all Char.isDigit
  | _ => false

/-- The BaseLine.subject regex, a LAST alternative or a Q-id alternative.
Under re.match the first alternative is anchored only at the start, so
any string beginning with LAST is accepted; the second alternative ends
with the dollar anchor, so it must cover the whole string. -/
def subjectMatches (s : String) : Bool :=
  "LAST".data.isPrefixOf s.data || isQNum s

/-- A full match of P followed by one or more digits. -/
def isPNumFull (s : String) : Bool :=
  match s.data with
  | 'P' :: rest => !rest.isEmpty && rest.all Char.isDigit
  | _ => false

/-- The BaseLine.predicate regex, a P-id alternative or a single letter
A, D or L followed by one of the language codes. Under re.match the
first alternative is anchored only at the start, so any string whose
first character is P and second character is a digit is accepted; the
second alternative ends with the dollar anchor, so the letter plus the
code must cover the whole string. -/
def predicateMatches (s : String) : Bool :=
  (match s.data with
   | 'P' :: c :: _ => c.isDigit
   | _ => false)
  ||
  (match s.data with
   | c :: rest => (c = 'A' || c = 'D' || c = 'L') && LANGUAGE_CODES.contains (String.mk rest)
   | [] => false)

/-! ## Qualifiers (model.py lines 38-59, 149-158) -/

/-- A qualifier that points to a Wikidata entity. -/
structure EntityQualifier where
  predicate : String
  target : String
deriving DecidableEq, Repr

/-- A qualifier that points to a date string. -/
structure DateQualifier where
  predicate : String
  target : String
deriving DecidableEq, Repr

/-- A qualifier that points to a string literal. -/
structure TextQualifier where
  predicate : String
  target : String
deriving DecidableEq, Repr

/-- The discriminated union of the three qualifier types. -/
inductive Qualifier where
  | entity (q : EntityQualifier)
  | date (q : DateQualifier)
  | text (q : TextQualifier)
deriving DecidableEq, Repr

/-- EntityQualifier.get_target returns the target identifier bare. -/
def EntityQualifier.get_target (q : EntityQualifier) : String := q.target

/-- DateQualifier.get_target returns the serialized date bare. -/
def DateQualifier.get_target (q : DateQualifier) : String := q.target

/-- TextQualifier.get_target wraps the target in double quotes. -/
def TextQualifier.get_target (q : TextQualifier) : String :=
  "\"" ++ q.target ++ "\""

/-- Dispatch of get_target over the qualifier union. -/
def Qualifier.get_target : Qualifier → String
  | .entity q => q.get_target
  | .date q => q.get_target
  | .text q => q.get_target

/-- The predicate field shared by the three qualifier classes. -/
def Qualifier.predicate : Qualifier → String
  | .entity q => q.predicate
  | .date q => q.predicate
  | .text q => q.predicate

/-- The pydantic field validation of each qualifier class: predicates
always match the PQS pattern, and an entity target matches it too. -/
def Qualifier.valid : Qualifier → Bool
  | .entity q => isPQSNum q.predicate && isPQSNum q.target
  | .date q => isPQSNum q.predicate
  | .text q => isPQSNum q.predicate

/-! ## Date encoding (model.py lines 85-146) -/

/-- A calendar instant, the fields of a Python datetime that
format_date and prepare_date read. -/
structure DateTime where
  year : Nat
  month : Nat
  day : Nat
  hour : Nat
  minute : Nat
  second : Nat
deriving DecidableEq, Repr

/-- format_date: the f-string with the year padded to width 4, every
other numeric component padded to width 2, a leading plus sign and the
precision after the slash. -/
def format_date (precision : Int) (year month day hour minute second : Nat) : String :=
  "+" ++ padNum 4 year ++ "-" ++ padNum 2 month ++ "-" ++ padNum 2 day ++
    "T" ++ padNum 2 hour ++ ":" ++ padNum 2 minute ++ ":" ++ padNum 2 second ++
    "Z/" ++ toString precision

/-- The Union of str and datetime accepted by prepare_date. -/
inductive DateInput where
  | str (s : String)
  | dt (d : DateTime)
deriving DecidableEq, Repr

/-- The if-elif chain of prepare_date on a datetime, after the None
default has been replaced by 11: each supported precision keeps the
fields it covers and leaves the finer fields at the zero defaults of
format_date; any other precision raises ValueError. -/
def prepareDatePrecision (d : DateTime) (p : Int) : Except String String :=
  if p = 11 then .ok (format_date p d.year d.month d.day 0 0 0)
  else if p = 10 then .ok (format_date p d.year d.month 0 0 0 0)
  else if p = 9 then .ok (format_date p d.year 0 0 0 0 0)
  else if p = 12 then .ok (format_date p d.year d.month d.day d.hour 0 0)
  else if p = 13 then .ok (format_date p d.year d.month d.day d.hour d.minute 0)
  else if p = 14 then .ok (format_date p d.year d.month d.day d.hour d.minute d.second)
  else .error ("Invalid precision: " ++ toString p)

/-- prepare_date: a string passes through unchanged before any other
check; a datetime is dispatched on the precision, with None replaced by
the day-precision default 11. -/
def prepare_date (target : DateInput) (precision : Option Int) : Except String String :=
  match target with
  | .str s => .ok s
  | .dt d => prepareDatePrecision d (precision.getD 11)

/-! ## Lines (model.py lines 167-233) -/

/-- The trivial CREATE line. -/
structure CreateLine where
deriving DecidableEq, Repr

/-- A line whose target is a Wikidata entity. -/
structure EntityLine where
  subject : String
  predicate : String
  target : String
  qualifiers : List Qualifier
deriving DecidableEq, Repr

/-- A line whose target is a string literal. -/
structure TextLine where
  subject : String
  predicate : String
  target : String
  qualifiers : List Qualifier
deriving DecidableEq, Repr

/-- EntityLine.get_target returns the target identifier bare. -/
def EntityLine.get_target (l : EntityLine) : String := l.target

/-- TextLine.get_target wraps the target in double quotes. -/
def TextLine.get_target (l : TextLine) : String :=
  "\"" ++ l.target ++ "\""

/-- BaseLine.get_line: the parts list starts as subject, predicate and
the rendered target, then the loop appends each qualifier's predicate
and rendered target, and the parts are joined with the separator. The
virtual get_target call is passed in as the already-rendered target. -/
def baseGetLine (subject predicate renderedTarget : String)
    (qualifiers : List Qualifier) (sep : String) : String :=
  pyJoin sep
    (qualifiers.foldl (fun parts q => parts ++ [q.predicate, q.get_target])
      [subject, predicate, renderedTarget])

/-- get_line on an entity line. -/
def EntityLine.get_line (l : EntityLine) (sep : String) : String :=
  baseGetLine l.subject l.predicate l.get_target l.qualifiers sep

/-- get_line on a text line. -/
def TextLine.get_line (l : TextLine) (sep : String) : String :=
  baseGetLine l.subject l.predicate l.get_target l.qualifiers sep

/-- The discriminated union of the three line types. -/
inductive Line where
  | create (l : CreateLine)
  | entity (l : EntityLine)
  | text (l : TextLine)
deriving DecidableEq, Repr

/-- Dispatch of get_line over the line union; the CREATE line ignores
the separator and renders as the literal token. -/
def Line.get_line (l : Line) (sep : String) : String :=
  match l with
  | .create _ => "CREATE"
  | .entity l => l.get_line sep
  | .text l => l.get_line sep

/-- The pydantic construction of an EntityLine: subject, predicate and
target must match their field regexes (the qualifiers are already
constructed objects, validated by their own constructors). -/
def mkEntityLine (subject predicate target : String)
    (qualifiers : List Qualifier) : Option EntityLine :=
  if subjectMatches subject && predicateMatches predicate && isQNum target then
    some (EntityLine.mk subject predicate target qualifiers)
  else
    none

/-- The pydantic construction of a TextLine: subject and predicate must
match their field regexes; the target is an arbitrary string. -/
def mkTextLine (subject predicate target : String)
    (qualifiers : List Qualifier) : Option TextLine :=
  if subjectMatches subject && predicateMatches predicate then
    some (TextLine.mk subject predicate target qualifiers)
  else
    none

/-- Validity of an already-built line: its string fields satisfy the
field regexes of its class and every qualifier is valid. -/
def Line.valid : Line → Bool
  | .create _ => true
  | .entity l =>
    subjectMatches l.subject && predicateMatches l.predicate && isQNum l.target
      && l.qualifiers.all Qualifier.valid
  | .text l =>
    subjectMatches l.subject && predicateMatches l.predicate
      && l.qualifiers.all Qualifier.valid

/-! ## Renderers (model.py lines 236-244) -/

/-- render_lines joins each line's get_line with the newline separator. -/
def render_lines (lines : List Line) (sep : String) (newline : String) : String :=
  pyJoin newline (lines.map (fun l => l.get_line sep))

/-- One uppercase hex digit, as written by urllib's percent-encoder. -/
def hexUpperChar (n : Nat) : Char :=
  if n < 10 then Char.ofNat (48 + n) else Char.ofNat (55 + n)

/-- Is the byte in urllib's always-safe set of unreserved characters:
an ASCII letter, a digit, underscore, period, hyphen or tilde? With an
empty safe argument these are the only bytes left unencoded. -/
def isAlwaysSafe (n : Nat) : Bool :=
  (65 ≤ n && n ≤ 90) || (97 ≤ n && n ≤ 122) || (48 ≤ n && n ≤ 57)
    || n = 95 || n = 46 || n = 45 || n = 126

/-- Percent-encode a list of byte values: a safe byte stays itself, any
other is written as a percent sign and two uppercase hex digits. -/
def quoteChars : List Nat → List Char
  | [] => []
  | b :: bs =>
    (if isAlwaysSafe b then [Char.ofNat b]
     else ['%', hexUpperChar (b / 16), hexUpperChar (b % 16)]) ++ quoteChars bs

/-- urllib.parse.quote restricted to an empty safe set, applied to the
UTF-8 bytes of the input string. -/
def quoteSafeNone (s : String) : String :=
  String.mk (quoteChars ((s.toUTF8.data.toList).map (fun b => b.toNat)))

/-- lines_to_url: the fixed V1 prefix followed by the rendered lines
percent-encoded with an empty safe set. -/
def lines_to_url (lines : List Line) : String :=
  "https://quickstatements.toolforge.org/#/v1=" ++
    quoteSafeNone (render_lines lines "|" "||")

/-! ## Spec-side definitions, for comparison with the source embedding -/

/-- Follows the spec's words: a subject matches the anchored pattern
LAST or the anchored pattern Q followed by digits, as a full match of
the whole string. -/
def subjectSpecFull (s : String) : Bool :=
  s = "LAST" || isQNum s

/-- Follows the spec's words: a predicate is a full match of P followed
by digits, or a single letter L, A or D immediately followed by a
language code from the closed set, covering the whole string. -/
def predicateSpecFull (s : String) : Bool :=
  isPNumFull s ||
    (match s.data with
     | c :: rest => (c = 'L' || c = 'A' || c = 'D') && LANGUAGE_CODES.contains (String.mk rest)
     | [] => false)

/-- The flat list of each qualifier's predicate followed by its rendered
target, in stored order. -/
def qualifierParts : List Qualifier → List String
  | [] => []
  | q :: qs => q.predicate :: q.get_target :: qualifierParts qs

/-- The fields a rendered line consists of: subject, predicate and
rendered target followed by the qualifier pairs, or the CREATE token. -/
def lineParts : Line → List String
  | .create _ => ["CREATE"]
  | .entity l => l.subject :: l.predicate :: l.get_target :: qualifierParts l.qualifiers
  | .text l => l.subject :: l.predicate :: l.get_target :: qualifierParts l.qualifiers

/-- Split a character list at every occurrence of the separator
character, the usual textbook splitter. -/
def charSplit (c : Char) : List Char → List (List Char)
  | [] => [[]]
  | x :: xs =>
    if x = c then [] :: charSplit c xs
    else
      match charSplit c xs with
      | [] => [[x]]
      | y :: ys => (x :: y) :: ys

/-- Split a string on a separator character. -/
def splitChar (s : String) (c : Char) : List String :=
  (charSplit c s.data).map String.mk

/-- Is the character one that percent-encoded output may contain: an
unreserved character or the percent sign itself? -/
def unreservedOrPercent (c : Char) : Bool :=
  c.isAlphanum || c = '_' || c = '.' || c = '-' || c = '~' || c = '%'

/-! ## Helper lemmas -/

theorem mk_data (s : String) : String.mk s.data = s := by
  cases s
  rfl

theorem pyJoin_cons_cons (s x y : String) (ys : List String) :
    pyJoin s (x :: y :: ys) = x ++ s ++ pyJoin s (y :: ys) := rfl

theorem pyJoin_shift (s acc a : String) (as : List String) :
    pyJoin s ((acc ++ s ++ a) :: as) = pyJoin s (acc :: a :: as) := by
  cases as with
  | nil => rfl
  | cons a' as' =>
    rw [pyJoin_cons_cons, pyJoin_cons_cons, pyJoin_cons_cons]
    simp [String.append_assoc]

theorem intercalate_go_eq (s : String) :
    ∀ (as : List String) (acc : String), String.intercalate.go acc s as = pyJoin s (acc :: as) := by
  intro as
  induction as with
  | nil => intro acc; rfl
  | cons a as ih =>
    intro acc
    rw [String.intercalate.go, ih (acc ++ s ++ a), pyJoin_shift]

theorem pyJoin_eq_intercalate (s : String) (ps : List String) :
    pyJoin s ps = String.intercalate s ps := by
  cases ps with
  | nil => rfl
  | cons a as => rw [String.intercalate, intercalate_go_eq]

theorem foldl_qualifierParts :
    ∀ (qs : List Qualifier) (init : List String),
      qs.foldl (fun parts q => parts ++ [q.predicate, q.get_target]) init
        = init ++ qualifierParts qs := by
  intro qs
  induction qs with
  | nil => intro init; simp [qualifierParts]
  | cons q qs ih =>
    intro init
    rw [List.foldl_cons, ih, qualifierParts, List.append_assoc]
    rfl

theorem baseGetLine_eq (su pr t : String) (qs : List Qualifier) (sep : String) :
    baseGetLine su pr t qs sep = pyJoin sep (su :: pr :: t :: qualifierParts qs) := by
  unfold baseGetLine
  rw [foldl_qualifierParts]
  rfl

theorem get_line_eq_pyJoin_lineParts (l : Line) (sep : String) :
    l.get_line sep = pyJoin sep (lineParts l) := by
  cases l with
  | create c => rfl
  | entity l => exact baseGetLine_eq l.subject l.predicate l.get_target l.qualifiers sep
  | text l => exact baseGetLine_eq l.subject l.predicate l.get_target l.qualifiers sep

theorem charSplit_of_not_mem {c : Char} : ∀ {l : List Char}, c ∉ l → charSplit c l = [l] := by
  intro l
  induction l with
  | nil => intro _; rfl
  | cons x xs ih =>
    intro h
    have hx : ¬(x = c) := fun e => h (e ▸ List.mem_cons_self x xs)
    have hxs : c ∉ xs := fun m => h (List.mem_cons_of_mem x m)
    simp [charSplit, hx, ih hxs]

theorem charSplit_append {c : Char} (rest : List Char) :
    ∀ {l : List Char}, c ∉ l → charSplit c (l ++ c :: rest) = l :: charSplit c rest := by
  intro l
  induction l with
  | nil => intro _; simp [charSplit]
  | cons x xs ih =>
    intro h
    have hx : ¬(x = c) := fun e => h (e ▸ List.mem_cons_self x xs)
    have hxs : c ∉ xs := fun m => h (List.mem_cons_of_mem x m)
    simp [charSplit, hx, ih hxs]

theorem charSplit_pyJoin (c : Char) :
    ∀ (ps : List String), ps ≠ [] → (∀ p ∈ ps, c ∉ p.data) →
      charSplit c (pyJoin (String.mk [c]) ps).data = ps.map String.data := by
  intro ps
  induction ps with
  | nil => intro h _; exact absurd rfl h
  | cons p ps ih =>
    intro _ hfree
    cases ps with
    | nil =>
      simp only [pyJoin, List.map]
      exact charSplit_of_not_mem (hfree p (List.mem_cons_self p []))
    | cons q qs =>
      rw [pyJoin_cons_cons, String.data_append, String.data_append]
      have hs : (String.mk [c]).data = [c] := rfl
      rw [hs, List.append_assoc, List.singleton_append]
      rw [charSplit_append _ (hfree p (List.mem_cons_self p (q :: qs)))]
      rw [ih (by simp) (fun r hr => hfree r (List.mem_cons_of_mem p hr))]
      rfl

theorem map_mk_map_data (ps : List String) : (ps.map String.data).map String.mk = ps := by
  induction ps with
  | nil => rfl
  | cons p ps ih => simp [ih, mk_data]

theorem splitChar_pyJoin (ps : List String) (hne : ps ≠ [])
    (hfree : ∀ p ∈ ps, '|' ∉ p.data) : splitChar (pyJoin "|" ps) '|' = ps := by
  unfold splitChar
  have h : ("|" : String) = String.mk ['|'] := rfl
  rw [h, charSplit_pyJoin '|' ps hne hfree, map_mk_map_data]

theorem quoteChars_byte_all :
    ∀ b, b < 256 →
      ((if isAlwaysSafe b then [Char.ofNat b]
        else ['%', hexUpperChar (b / 16), hexUpperChar (b % 16)]).all unreservedOrPercent)
        = true := by
  decide

theorem quoteChars_all :
    ∀ (bs : List Nat), (∀ b ∈ bs, b < 256) → (quoteChars bs).all unreservedOrPercent = true := by
  intro bs
  induction bs with
  | nil => intro _; rfl
  | cons b bs ih =>
    intro h
    rw [quoteChars, List.all_append]
    rw [quoteChars_byte_all b (h b (List.mem_cons_self b bs)),
      ih (fun x hx => h x (List.mem_cons_of_mem b hx))]
    rfl

theorem quoteSafeNone_all (s : String) :
    (quoteSafeNone s).data.all unreservedOrPercent = true := by
  unfold quoteSafeNone
  apply quoteChars_all
  intro b hb
  obtain ⟨u, _, rfl⟩ := List.mem_map.mp hb
  exact u.toNat_lt_size

theorem contains_eq_false_of_all {p : Char → Bool} {c : Char} (hc : p c = false) :
    ∀ (l : List Char), l.all p = true → l.contains c = false := by
  intro l
  induction l with
  | nil => intro _; rfl
  | cons x xs ih =>
    intro hall
    rw [List.all_cons, Bool.and_eq_true] at hall
    rw [List.contains_cons, ih hall.2, Bool.or_false]
    cases he : (c == x) with
    | false => rfl
    | true =>
      have : c = x := eq_of_beq he
      rw [← this, hc] at hall
      exact absurd hall.1 (by simp)

/-! ## Claim theorems -/

/-- Claim C1: get_line on an EntityLine or TextLine returns the subject,
the predicate, the variant-rendered target (bare for an entity target,
double-quoted for a text target) and then each qualifier's predicate and
rendered target in stored order, joined by the separator; the spec's
example EntityLine renders to exactly the given string and the TextLine
example renders to its quoted form. -/
theorem get_line_field_order :
    (∀ (l : EntityLine) (sep : String),
      l.get_line sep
        = pyJoin sep (l.subject :: l.predicate :: l.target :: qualifierParts l.qualifiers))
    ∧ (∀ (l : TextLine) (sep : String),
      l.get_line sep
        = pyJoin sep
            (l.subject :: l.predicate :: ("\"" ++ l.target ++ "\"")
              :: qualifierParts l.qualifiers))
    ∧ (EntityLine.mk "Q47475003" "P108" "Q49121"
        [Qualifier.text (TextQualifier.mk "S854" "https://orcid.org/0000-0003-4423-4370"),
         Qualifier.date (DateQualifier.mk "P580" "+2021-02-15T00:00:00Z/11"),
         Qualifier.entity (EntityQualifier.mk "P39" "Q1706722")]).get_line "|"
      = "Q47475003|P108|Q49121|S854|\"https://orcid.org/0000-0003-4423-4370\"|P580|+2021-02-15T00:00:00Z/11|P39|Q1706722"
    ∧ (TextLine.mk "Q47475003" "P1449" "Charlie" []).get_line "|"
      = "Q47475003|P1449|\"Charlie\"" := by
  refine ⟨?_, ?_, ?_, ?_⟩
  · intro l sep
    exact baseGetLine_eq l.subject l.predicate l.get_target l.qualifiers sep
  · intro l sep
    exact baseGetLine_eq l.subject l.predicate l.get_target l.qualifiers sep
  · rfl
  · rfl

/-- Claim C2: the subject field regex of the source, an alternation whose
LAST branch is only anchored at the start, accepts the subject LAST123
under re.match, while the spec's anchored pattern (a full match of LAST
or of Q followed by digits) rejects it; the spec's example 47475003 is
rejected by both. The code therefore accepts subjects the spec excludes. -/
theorem subject_validation_divergence :
    (mkEntityLine "LAST123" "P108" "Q49121" []).isSome = true
    ∧ subjectSpecFull "LAST123" = false
    ∧ (mkTextLine "LAST123" "P1449" "Charlie" []).isSome = true
    ∧ (mkEntityLine "47475003" "P108" "Q49121" []).isSome = false := by
  decide

/-- Claim C3: the predicate field regex of the source, an alternation
whose property-id branch is only anchored at the start, accepts the
predicate P1x under re.match, while the spec's anchored pattern (a full
match of P followed by digits, or a letter L, A or D followed by a
recognized language code) rejects it; a label command with a recognized
code is accepted by both and one with an unknown code by neither. -/
theorem predicate_validation_divergence :
    (mkEntityLine "Q1" "P1x" "Q2" []).isSome = true
    ∧ predicateSpecFull "P1x" = false
    ∧ (mkEntityLine "Q1" "Len" "Q2" []).isSome = true
    ∧ predicateSpecFull "Len" = true
    ∧ (mkEntityLine "Q1" "Lqx" "Q2" []).isSome = false := by
  decide

/-- Claim C4, counterexample: a validly constructed TextLine whose text
target contains the separator character renders to a line that splitting
on the separator does not take back to the original fields. -/
theorem get_line_split_roundtrip_fails :
    Line.valid (Line.text (TextLine.mk "Q1" "P1" "a|b" [])) = true
    ∧ splitChar ((Line.text (TextLine.mk "Q1" "P1" "a|b" [])).get_line "|") '|'
        ≠ lineParts (Line.text (TextLine.mk "Q1" "P1" "a|b" [])) := by
  decide

/-- Claim C4, amended: for every validly constructed line none of whose
rendered fields (subject, predicate, rendered target, qualifier
predicates and rendered qualifier targets) contains the separator
character, splitting the string returned by get_line on the separator
recovers exactly those fields in the original order. -/
theorem get_line_split_roundtrip (l : Line) (hv : l.valid = true)
    (hfree : ∀ p ∈ lineParts l, '|' ∉ p.data) :
    splitChar (l.get_line "|") '|' = lineParts l := by
  rw [get_line_eq_pyJoin_lineParts]
  apply splitChar_pyJoin _ _ hfree
  cases l <;> simp [lineParts]

/-- Witness for the amended claim C4 at a concrete entity line with one
qualifier. -/
theorem get_line_split_roundtrip_witness :
    splitChar ((Line.entity (EntityLine.mk "Q47475003" "P108" "Q49121"
        [Qualifier.entity (EntityQualifier.mk "P39" "Q1706722")])).get_line "|") '|'
      = lineParts (Line.entity (EntityLine.mk "Q47475003" "P108" "Q49121"
          [Qualifier.entity (EntityQualifier.mk "P39" "Q1706722")])) :=
  get_line_split_roundtrip _ (by decide) (by decide)

/-- Claim C5: for a datetime and a supported precision, prepare_date
keeps exactly the calendar fields the precision covers and leaves the
finer fields zero, formatted with the year padded to 4 digits and every
other component to 2; the default precision is the day precision 11,
and the two example dates format as stated. -/
theorem prepare_date_precision_encoding :
    (∀ (d : DateTime) (p : Int), 9 ≤ p → p ≤ 14 →
      prepare_date (.dt d) (some p)
        = .ok (format_date p d.year (if 10 ≤ p then d.month else 0)
            (if 11 ≤ p then d.day else 0) (if 12 ≤ p then d.hour else 0)
            (if 13 ≤ p then d.minute else 0) (if 14 ≤ p then d.second else 0)))
    ∧ (∀ d : DateTime, prepare_date (.dt d) none = prepare_date (.dt d) (some 11))
    ∧ prepare_date (.dt (DateTime.mk 2021 2 15 0 0 0)) (some 11)
        = .ok "+2021-02-15T00:00:00Z/11"
    ∧ prepare_date (.dt (DateTime.mk 2021 2 1 0 0 0)) (some 10)
        = .ok "+2021-02-00T00:00:00Z/10" := by
  refine ⟨?_, fun d => rfl, rfl, rfl⟩
  intro d p h9 h14
  interval_cases p <;> norm_num [prepare_date, prepareDatePrecision]

/-- Witness for claim C5 at hour precision on a concrete instant. -/
theorem prepare_date_precision_encoding_witness :
    prepare_date (.dt (DateTime.mk 2021 2 15 10 30 59)) (some 12)
      = Except.ok "+2021-02-15T10:00:00Z/12" := by
  have h := prepare_date_precision_encoding.1 (DateTime.mk 2021 2 15 10 30 59) 12
    (by norm_num) (by norm_num)
  rw [h]
  rfl

/-- Claim C6: for a datetime and any integer precision outside the six
supported codes, prepare_date raises the invalid-precision error and
returns no formatted string. -/
theorem prepare_date_invalid_precision_errors (d : DateTime) (p : Int)
    (h : p ∉ ([9, 10, 11, 12, 13, 14] : List Int)) :
    prepare_date (.dt d) (some p) = .error ("Invalid precision: " ++ toString p) := by
  have h9 : ¬(p = 9) := fun e => h (by rw [e]; decide)
  have h10 : ¬(p = 10) := fun e => h (by rw [e]; decide)
  have h11 : ¬(p = 11) := fun e => h (by rw [e]; decide)
  have h12 : ¬(p = 12) := fun e => h (by rw [e]; decide)
  have h13 : ¬(p = 13) := fun e => h (by rw [e]; decide)
  have h14 : ¬(p = 14) := fun e => h (by rw [e]; decide)
  simp [prepare_date, prepareDatePrecision, h9, h10, h11, h12, h13, h14]

/-- Witness for claim C6 at the unsupported precision 15. -/
theorem prepare_date_invalid_precision_errors_witness :
    prepare_date (.dt (DateTime.mk 2021 1 1 0 0 0)) (some 15)
      = Except.error "Invalid precision: 15" := by
  have h := prepare_date_invalid_precision_errors (DateTime.mk 2021 1 1 0 0 0) 15 (by decide)
  rw [h]
  rfl

/-- Claim C7: a string input passes through prepare_date unchanged, for
every precision argument. -/
theorem prepare_date_string_passthrough :
    ∀ (s : String) (precision : Option Int), prepare_date (.str s) precision = .ok s :=
  fun _ _ => rfl

/-- Claim C8: render_lines joins each line's get_line with the line
separator, preserving input order, and returns the empty string on the
empty sequence, for every choice of both separators. -/
theorem render_lines_intercalates :
    (∀ (sep newline : String), render_lines [] sep newline = "")
    ∧ (∀ (lines : List Line) (sep newline : String),
        render_lines lines sep newline
          = String.intercalate newline (lines.map (fun l => l.get_line sep))) := by
  constructor
  · intro sep newline
    rfl
  · intro lines sep newline
    exact pyJoin_eq_intercalate newline (lines.map (fun l => l.get_line sep))

/-- Claim C9: lines_to_url is the fixed V1 prefix followed by the
percent-encoding, with an empty safe set, of the rendered lines; every
character of the encoded payload is an unreserved character or a percent
sign, so the reserved pipe character never survives encoding. -/
theorem lines_to_url_encodes (lines : List Line) :
    lines_to_url lines
      = "https://quickstatements.toolforge.org/#/v1="
        ++ quoteSafeNone (render_lines lines "|" "||")
    ∧ (quoteSafeNone (render_lines lines "|" "||")).data.all unreservedOrPercent = true
    ∧ (quoteSafeNone (render_lines lines "|" "||")).data.contains '|' = false := by
  refine ⟨rfl, quoteSafeNone_all _, ?_⟩
  exact contains_eq_false_of_all (by decide) _ (quoteSafeNone_all _)

/-- Claim C10: the text qualifier and text line targets are wrapped in
one literal double quote on each side with no escaping, so two distinct
valid lines, one whose single text target contains quote and separator
characters, render to the same wire string: the field boundaries are
ambiguous. -/
theorem text_target_quoted_verbatim :
    (∀ q : TextQualifier, q.get_target = "\"" ++ q.target ++ "\"")
    ∧ (∀ l : TextLine, l.get_target = "\"" ++ l.target ++ "\"")
    ∧ Line.valid (Line.text (TextLine.mk "Q1" "P1" "a\"|P2|\"b" [])) = true
    ∧ Line.valid
        (Line.text (TextLine.mk "Q1" "P1" "a"
          [Qualifier.text (TextQualifier.mk "P2" "b")])) = true
    ∧ Line.text (TextLine.mk "Q1" "P1" "a\"|P2|\"b" [])
        ≠ Line.text (TextLine.mk "Q1" "P1" "a"
            [Qualifier.text (TextQualifier.mk "P2" "b")])
    ∧ (Line.text (TextLine.mk "Q1" "P1" "a\"|P2|\"b" [])).get_line "|"
        = (Line.text (TextLine.mk "Q1" "P1" "a"
            [Qualifier.text (TextQualifier.mk "P2" "b")])).get_line "|" := by
  refine ⟨fun q => rfl, fun l => rfl, ?_, ?_, ?_, ?_⟩ <;> decide

end QuickStatements
